import Mathlib

/-!
Shallow embedding of the Pixter round/turn state machine and scoring engine.

The authoritative source is the main React component (src/unnamed/part_003):
its state hooks become the fields of `AppState`, and its event handlers
(`handleDescribe`, `handleGuess`, `handleGiveUp`, `nextRound`, `startGame`,
`resetGame`) become pure state-transition functions.  Gateway calls
(`api.generateImage`, `api.judge`) may suspend and fail, so each handler that
awaits one takes the gateway's reply as an explicit `Except` argument; the
sequential net effect of the handler (including the `finally setLoading(null)`)
is what the transition function returns.

The local judging heuristic of the Express backend (src/unnamed/part_001,
`computeCloseness` and the mock branch of the judge route) is embedded
separately at the end of the definitions section.

Modelling conventions:
* JavaScript strings are Lean `String`s; JS string truthiness (`if (s)`) is
  `jsTruthy`: a present, non-empty string.
* JS numbers holding scores are `Int` (the app only ever adds integers).
* The `scores` record has exactly the keys 1 and 2, modelled as `Int × Int`.
* React render gating matters: the guess form (whose buttons invoke
  `handleGuess` / `handleGiveUp`) is mounted only while
  `started && !gameOver && current.imageUrl && !roundOver`; the functions
  `submitGuess` and `giveUp` model the handlers as reachable through the
  rendered interface, while `handleGuess` / `handleGiveUp` are the raw
  handlers exactly as written.
* The cosmetic `theme`, `paused` (set by a render effect, read only by the
  render tree) and player-name input fields are not part of any claim and are
  not modelled.
-/

namespace Pixter

/-- JS truthiness of a nullable string: present and non-empty. -/
def jsTruthy : Option String → Bool
  | none => false
  | some s => s ≠ ""

/-- JS `a || b` for strings: `b` when `a` is falsy (empty). -/
def jsOr (a b : String) : String := if a = "" then b else a

/-! JS-string primitives, implemented by structural recursion on the character
list so that concrete evaluation reduces in the kernel (core's `String.trim`,
`String.toLower`, `String.split` are loops over byte positions).  Lower-casing
is ASCII `Char.toLower`, whitespace is `Char.isWhitespace`; both agree with
the JS operations on the app's inputs. -/

/-- `s.toLowerCase()`. -/
def toLowerStr (s : String) : String := ⟨s.data.map Char.toLower⟩

/-- `s.trim()` on the character list. -/
def trimChars (l : List Char) : List Char :=
  ((l.dropWhile Char.isWhitespace).reverse.dropWhile Char.isWhitespace).reverse

/-- `s.trim()`. -/
def trimStr (s : String) : String := ⟨trimChars s.data⟩

/-- Split a character list at every character satisfying `p` (the semantics of
`String.split`, and of a JS `split` on a single-character class once empty
pieces are discarded). -/
def splitChars (p : Char → Bool) : List Char → List (List Char)
  | [] => [[]]
  | c :: cs =>
    if p c then [] :: splitChars p cs
    else
      match splitChars p cs with
      | t :: ts => (c :: t) :: ts
      | [] => [[c]]

/-- `normalizeText` from part_003 line 5:
`s.trim().replace(/\s+/g, ' ').toLowerCase()` — trim, collapse whitespace
runs to single spaces, lower-case.  Splitting at whitespace, dropping empty
pieces and re-joining with single spaces is exactly trim-and-collapse. -/
def normalizeText (s : String) : String :=
  ⟨(List.intercalate [' ']
      ((splitChars Char.isWhitespace s.data).filter (fun t => t ≠ []))).map
    Char.toLower⟩

/-- Round end reason, part_003 line 97: `'max_attempts' | 'give_up' | 'correct'`. -/
inductive RoundReason
  | max_attempts
  | give_up
  | correct
deriving DecidableEq, Repr

/-- One guess attempt (part_003 line 71). -/
structure Attempt where
  guess : String
  correct : Bool
  rationale : Option String
  closeness : Option ℚ
deriving DecidableEq, Repr

/-- A player (src/types): stable id (1 or 2), display name, color. -/
structure Player where
  id : Nat
  name : String
  color : String
deriving DecidableEq, Repr

/-- `RoundData` (part_003 lines 64-72).  Optional fields absent in a fresh
round are `none` / `[]`; every read of `attempts` in the source goes through
`?.` or `|| []`, so the missing list and the empty list behave identically. -/
structure RoundData where
  describerId : Nat
  description : String
  imageUrl : Option String := none
  guess : Option String := none
  correct : Option Bool := none
  rationale : Option String := none
  attempts : List Attempt := []
deriving DecidableEq, Repr

/-- `RoundHistoryItem` (part_003 lines 74-82). -/
structure RoundHistoryItem where
  id : Nat
  describerId : Nat
  describerName : String
  description : String
  imageUrl : Option String
  reason : RoundReason
  attempts : List Attempt
deriving DecidableEq, Repr

/-- The judge gateway's successful reply (`api.judge`): `correct`, optional
`rationale` and `closeness` (part_001 judge route). -/
structure JudgeResult where
  correct : Bool
  rationale : Option String
  closeness : Option ℚ
deriving DecidableEq, Repr

/-- The React component's state (part_003 lines 85-122), one field per
`useState` hook relevant to the round/score engine.
`scores = (scores[1], scores[2])`. -/
structure AppState where
  players : List Player
  scores : Int × Int
  current : RoundData
  started : Bool
  loading : Option String
  error : Option String
  gameOver : Bool
  roundOver : Bool
  roundReason : Option RoundReason
  roundPoints : Option (Nat × Int)
  history : List RoundHistoryItem
  targetScore : Int
deriving DecidableEq, Repr

/-- part_003 line 122: `const POINTS_PER_CORRECT = 1`. -/
def POINTS_PER_CORRECT : Int := 1

/-- part_003 line 128: `players.find(p => p.id !== current.describerId)`. -/
def guesserPlayer (s : AppState) : Option Player :=
  s.players.find? (fun p => p.id ≠ s.current.describerId)

/-- part_003 line 124: `players.find(p => p.id === current.describerId)`. -/
def describerPlayer (s : AppState) : Option Player :=
  s.players.find? (fun p => p.id = s.current.describerId)

/-- `guesser.id`; the source uses a non-null assertion, the default 0 is
unreachable for the two-player configurations the app constructs. -/
def guesserId (s : AppState) : Nat := ((guesserPlayer s).map Player.id).getD 0

/-- `describer.name`, with the same unreachable-default convention. -/
def describerName (s : AppState) : String :=
  ((describerPlayer s).map Player.name).getD ""

/-- Read `scores[pid]` of the two-key score record. -/
def scoreOf (sc : Int × Int) (pid : Nat) : Int :=
  if pid = 1 then sc.1 else sc.2

/-- Write `{...s, [pid]: v}` on the two-key score record. -/
def setScore (sc : Int × Int) (pid : Nat) (v : Int) : Int × Int :=
  if pid = 1 then (v, sc.2) else if pid = 2 then (sc.1, v) else sc

/-- part_003 line 133: `s[1] >= targetScore || s[2] >= targetScore`. -/
def canWin (target : Int) (sc : Int × Int) : Bool :=
  sc.1 ≥ target ∨ sc.2 ≥ target

/-- The spec's round outcome, derived from the component state: `Pending`
while `roundOver` is false, otherwise according to `roundReason` (with the
source's own `roundReason || 'max_attempts'` fallback, part_003 line 370). -/
inductive Outcome
  | Pending
  | Correct
  | MaxAttemptsReached
  | GaveUp
deriving DecidableEq, Repr

def outcome (s : AppState) : Outcome :=
  if s.roundOver then
    match s.roundReason with
    | some .correct => .Correct
    | some .give_up => .GaveUp
    | _ => .MaxAttemptsReached
  else .Pending

/-- `handleDescribe` (part_003 lines 152-164).  `result` is the generation
gateway's reply: `.ok imageUrl` or `.error message`. -/
def handleDescribe (s : AppState) (description : String)
    (result : Except String String) : AppState :=
  if jsTruthy s.loading then s
  else
    match result with
    | .ok imageUrl =>
        { s with error := none, loading := none,
                 current := { s.current with
                               description := description,
                               imageUrl := some imageUrl } }
    | .error msg =>
        { s with error := some (jsOr msg "Failed to generate image"),
                 loading := none }

/-- The guess text of the most recent attempt:
`current.attempts?.[current.attempts.length - 1]?.guess` (part_003 line 170). -/
def lastGuess (r : RoundData) : Option String :=
  r.attempts.getLast?.map Attempt.guess

/-- The duplicate-suppression test of part_003 line 171:
`lastGuess && normalizeText(lastGuess) === normalizeText(guess)` —
note the JS truthiness test on the raw previous guess. -/
def isDuplicateGuess (r : RoundData) (g : String) : Bool :=
  match lastGuess r with
  | some lg => lg ≠ "" ∧ normalizeText lg = normalizeText g
  | none => false

/-- `handleGuess` (part_003 lines 166-242).  `result` is the judge gateway's
reply.  The transition captures the handler's sequential net effect, including
the `finally setLoading(null)`. -/
def handleGuess (s : AppState) (g : String)
    (result : Except String JudgeResult) : AppState :=
  if ¬ jsTruthy s.current.imageUrl then s
  else if jsTruthy s.loading then s
  else if isDuplicateGuess s.current g then s
  else
    match result with
    | .error msg =>
        { s with error := some (jsOr msg "Failed to judge"), loading := none }
    | .ok j =>
        let att : Attempt :=
          { guess := g, correct := j.correct,
            rationale := j.rationale, closeness := j.closeness }
        let attempts' := s.current.attempts ++ [att]
        let current' : RoundData :=
          { s.current with guess := some g, correct := some j.correct,
                           rationale := j.rationale, attempts := attempts' }
        if j.correct then
          let gid := guesserId s
          let next := setScore s.scores gid (scoreOf s.scores gid + POINTS_PER_CORRECT)
          { s with
            current := current',
            scores := next,
            gameOver := s.gameOver || canWin s.targetScore next,
            roundPoints := some (gid, POINTS_PER_CORRECT),
            roundOver := true,
            roundReason := some .correct,
            history := s.history ++
              [{ id := s.history.length + 1,
                 describerId := s.current.describerId,
                 describerName := describerName s,
                 description := s.current.description,
                 imageUrl := s.current.imageUrl,
                 reason := .correct,
                 attempts := attempts' }],
            error := none, loading := none }
        else if attempts'.length ≥ 3 then
          { s with
            current := current',
            roundOver := true,
            roundReason := some .max_attempts,
            roundPoints := none,
            history := s.history ++
              [{ id := s.history.length + 1,
                 describerId := s.current.describerId,
                 describerName := describerName s,
                 description := s.current.description,
                 imageUrl := s.current.imageUrl,
                 reason := .max_attempts,
                 attempts := attempts' }],
            error := none, loading := none }
        else
          { s with current := current', error := none, loading := none }

/-- `handleGiveUp` (part_003 lines 244-270).  `confirmOk` is the result of the
`window.confirm` dialog. -/
def handleGiveUp (s : AppState) (confirmOk : Bool) : AppState :=
  if ¬ jsTruthy s.current.imageUrl then s
  else if jsTruthy s.loading then s
  else if ¬ confirmOk then s
  else
    { s with
      roundPoints := none,
      roundOver := true,
      roundReason := some .give_up,
      history := s.history ++
        [{ id := s.history.length + 1,
           describerId := s.current.describerId,
           describerName := describerName s,
           description := s.current.description,
           imageUrl := s.current.imageUrl,
           reason := .give_up,
           attempts := s.current.attempts }],
      error := none }

/-- `nextRound` (part_003 lines 272-278; the identically-coded part_005 lines
141-147): flip the turn to the previous guesser and reset the round state. -/
def nextRound (s : AppState) : AppState :=
  { s with
    current := { describerId := guesserId s, description := "" },
    roundOver := false,
    roundReason := none,
    roundPoints := none }

/-- `startGame` (part_003 lines 280-300); `start` stands for the random
initial describer draw (`Math.random() < 0.5 ? 1 : 2`). -/
def startGame (s : AppState) (n1 n2 : String) (start : Nat) : AppState :=
  { s with
    players := [⟨1, jsOr n1.trim "Jonas the Red", "#d94a4a"⟩,
                ⟨2, jsOr n2.trim "Erna the Blue", "#4a72d9"⟩],
    scores := (0, 0),
    current := { describerId := start, description := "" },
    roundOver := false,
    roundReason := none,
    roundPoints := none,
    history := [],
    gameOver := false,
    error := none,
    started := true }

/-- `resetGame` (part_003 lines 302-311). -/
def resetGame (s : AppState) (start : Nat) : AppState :=
  { s with
    scores := (0, 0),
    current := { describerId := start, description := "" },
    gameOver := false,
    history := [],
    error := none,
    started := false }

/-- The render tree (part_003 lines 330-391) mounts the guess form — the only
place `handleGuess` and `handleGiveUp` are invoked — exactly when the game is
started and not over, the round has an image, and the round is not over. -/
def guessFormVisible (s : AppState) : Bool :=
  s.started && !s.gameOver && jsTruthy s.current.imageUrl && !s.roundOver

/-- `submitGuess` as reachable through the rendered interface: the raw
handler, gated by the render condition of the guess form. -/
def submitGuess (s : AppState) (g : String)
    (result : Except String JudgeResult) : AppState :=
  if guessFormVisible s then handleGuess s g result else s

/-- `giveUp` as reachable through the rendered interface (the give-up button
lives inside the guess form). -/
def giveUp (s : AppState) (confirmOk : Bool) : AppState :=
  if guessFormVisible s then handleGiveUp s confirmOk else s

/-- `scores[1] >= scores[2] ? p1.name : p2.name` — the winner line of the
`GameOver` screen (part_003 line 574; identically part_005 line 353). -/
def winnerName (sc : Int × Int) (name1 name2 : String) : String :=
  if sc.1 ≥ sc.2 then name1 else name2

/-! ### The local judging heuristic (src/unnamed/part_001, judge route) -/

/-- Character class of the splitting regex `[^a-z0-9]` complement, applied to
the lower-cased input. -/
def isLowerAlnum (c : Char) : Bool :=
  ('a' ≤ c && c ≤ 'z') || ('0' ≤ c && c ≤ '9')

/-- The token set of `computeCloseness` (part_001 lines 209-220):
`new Set(String(t).toLowerCase().split(/[^a-z0-9]+/).filter(Boolean))`,
as its duplicate-free list of first occurrences.  Splitting on the regex with
`+` and dropping empties equals splitting at every separator character and
dropping empties. -/
def tokens (s : String) : List String :=
  (((splitChars (fun c => !(isLowerAlnum c)) (s.data.map Char.toLower)).filter
      (fun t => t ≠ [])).map String.mk).dedup

/-- `inter` of `computeCloseness` (part_001 lines 221-222): the number of
tokens of `b` present in the token set of `a`. -/
def overlapWords (a b : String) : Nat :=
  ((tokens b).filter (fun w => w ∈ tokens a)).length

/-- `new Set([...a, ...b]).size` (part_001 line 223). -/
def unionSize (a b : String) : Nat :=
  ((tokens a) ++ (tokens b)).dedup.length

/-- `closeness = inter / union` with `union || 1` (part_001 lines 223-224). -/
def computeCloseness (a b : String) : ℚ :=
  (overlapWords a b : ℚ) / (if unionSize a b = 0 then (1 : ℚ) else (unionSize a b : ℚ))

/-- The `correct` verdict of the mock judge branch (part_001 lines 229-231):
`overlap >= 3 || guess.trim().toLowerCase() === originalDescription.trim().toLowerCase()`. -/
def judgeLocalCorrect (orig guess : String) : Bool :=
  (3 ≤ overlapWords orig guess) || (toLowerStr (trimStr guess) = toLowerStr (trimStr orig))

/-! ### Spec-side definitions for the refinement claim C7.
These follow the wording of spec.md §6, to be compared with the source-derived
`computeCloseness`. -/

/-- The token set as a `Finset`. -/
def tokenFinset (s : String) : Finset String := (tokens s).toFinset

/-- Modelled from the spec (§6): `closeness = |intersection| / |union|` of the
token sets, "with union treated as 1 if both sets are empty". -/
def jaccardSpec (a b : Finset String) : ℚ :=
  ((a ∩ b).card : ℚ) / (if a = ∅ ∧ b = ∅ then (1 : ℚ) else ((a ∪ b).card : ℚ))

/-! ### Concrete states for witnesses and counterexamples -/

def samplePlayers : List Player :=
  [⟨1, "Jonas the Red", "#d94a4a"⟩, ⟨2, "Erna the Blue", "#4a72d9"⟩]

/-- A started match, player 1 describing, image generated, no attempts yet. -/
def baseState : AppState :=
  { players := samplePlayers,
    scores := (0, 0),
    current := { describerId := 1, description := "a red bicycle",
                 imageUrl := some "img1" },
    started := true,
    loading := none,
    error := none,
    gameOver := false,
    roundOver := false,
    roundReason := none,
    roundPoints := none,
    history := [],
    targetScore := 10 }

/-- "Are the two players the id-1 and id-2 players, in order?"  This is the
configuration every `players` value constructed by the app satisfies. -/
def standardPlayers (s : AppState) : Bool :=
  match s.players with
  | [p1, p2] => p1.id = 1 && p2.id = 2
  | _ => false

/-! ### Helper lemmas -/

theorem jsTruthy_eq_true {o : Option String} (h : jsTruthy o = true) :
    ∃ l, o = some l ∧ l ≠ "" := by
  cases o with
  | none => simp [jsTruthy] at h
  | some l => exact ⟨l, rfl, by simpa [jsTruthy] using h⟩

/-- With the standard two players, the guesser of a round is the other
player: player 2 when player 1 describes, player 1 otherwise. -/
theorem guesserId_std (s : AppState) (hp : standardPlayers s = true) :
    guesserId s = if s.current.describerId = 1 then 2 else 1 := by
  unfold standardPlayers at hp
  match hpl : s.players with
  | [] => rw [hpl] at hp; simp at hp
  | [p] => rw [hpl] at hp; simp at hp
  | p1 :: p2 :: p3 :: t => rw [hpl] at hp; simp at hp
  | [p1, p2] =>
    rw [hpl] at hp
    simp only [Bool.and_eq_true, decide_eq_true_eq] at hp
    unfold guesserId guesserPlayer
    rw [hpl]
    by_cases hd : s.current.describerId = 1
    · simp [List.find?, hp.1, hp.2, hd]
    · simp [List.find?, hp.1, hp.2, hd, Ne.symm hd]

/-- `handleGuess` leaves the state untouched when any of its three entry
guards fires. -/
theorem handleGuess_rejected (s : AppState) (g : String)
    (r : Except String JudgeResult)
    (h : jsTruthy s.current.imageUrl = false ∨ jsTruthy s.loading = true ∨
         isDuplicateGuess s.current g = true) :
    handleGuess s g r = s := by
  unfold handleGuess
  rcases h with h | h | h
  · simp [h]
  · by_cases h1 : jsTruthy s.current.imageUrl <;> simp [h1, h]
  · by_cases h1 : jsTruthy s.current.imageUrl
    · by_cases h2 : jsTruthy s.loading <;> simp [h1, h2, h]
    · simp [h1]

/-- The exact state `handleGuess` produces on a failed judge call that passed
the entry guards. -/
theorem handleGuess_error_accepted (s : AppState) (g msg : String)
    (himg : jsTruthy s.current.imageUrl = true)
    (hld : jsTruthy s.loading = false)
    (hdup : isDuplicateGuess s.current g = false) :
    handleGuess s g (Except.error msg) =
      { s with error := some (jsOr msg "Failed to judge"), loading := none } := by
  unfold handleGuess
  simp [himg, hld, hdup]

/-- Field-level description of `handleGuess` on a successful judge reply that
passed the entry guards. -/
theorem handleGuess_ok_fields (s : AppState) (g : String) (j : JudgeResult)
    (himg : jsTruthy s.current.imageUrl = true)
    (hld : jsTruthy s.loading = false)
    (hdup : isDuplicateGuess s.current g = false) :
    (handleGuess s g (Except.ok j)).current.attempts =
        s.current.attempts ++
          [{ guess := g, correct := j.correct, rationale := j.rationale,
             closeness := j.closeness }] ∧
    (handleGuess s g (Except.ok j)).targetScore = s.targetScore ∧
    (handleGuess s g (Except.ok j)).roundOver =
        (if j.correct then true
         else if s.current.attempts.length + 1 ≥ 3 then true else s.roundOver) ∧
    (handleGuess s g (Except.ok j)).roundReason =
        (if j.correct then some RoundReason.correct
         else if s.current.attempts.length + 1 ≥ 3 then some RoundReason.max_attempts
         else s.roundReason) ∧
    (handleGuess s g (Except.ok j)).scores =
        (if j.correct then
           setScore s.scores (guesserId s)
             (scoreOf s.scores (guesserId s) + POINTS_PER_CORRECT)
         else s.scores) ∧
    (handleGuess s g (Except.ok j)).gameOver =
        (if j.correct then
           s.gameOver || canWin s.targetScore (handleGuess s g (Except.ok j)).scores
         else s.gameOver) := by
  unfold handleGuess
  by_cases hc : j.correct
  · simp [himg, hld, hdup, hc]
  · by_cases hlen : s.current.attempts.length + 1 ≥ 3
    · simp [himg, hld, hdup, hc, hlen]
    · simp [himg, hld, hdup, hc, hlen]

/-- `handleGiveUp` never touches scores, the game-over flag, the round data,
or the target score, in any of its branches. -/
theorem handleGiveUp_preserves (s : AppState) (c : Bool) :
    (handleGiveUp s c).scores = s.scores ∧
    (handleGiveUp s c).gameOver = s.gameOver ∧
    (handleGiveUp s c).current = s.current ∧
    (handleGiveUp s c).targetScore = s.targetScore := by
  unfold handleGiveUp
  by_cases h1 : jsTruthy s.current.imageUrl
  · by_cases h2 : jsTruthy s.loading
    · simp [h1, h2]
    · by_cases h3 : c <;> simp [h1, h2, h3]
  · simp [h1]

/-- `handleDescribe` never touches scores, the game-over flag, the attempts,
the round-over data, or the target score. -/
theorem handleDescribe_preserves (s : AppState) (d : String)
    (r : Except String String) :
    (handleDescribe s d r).scores = s.scores ∧
    (handleDescribe s d r).gameOver = s.gameOver ∧
    (handleDescribe s d r).current.attempts = s.current.attempts ∧
    (handleDescribe s d r).roundOver = s.roundOver ∧
    (handleDescribe s d r).roundReason = s.roundReason ∧
    (handleDescribe s d r).targetScore = s.targetScore := by
  unfold handleDescribe
  by_cases h1 : jsTruthy s.loading
  · simp [h1]
  · cases r <;> simp [h1]

/-! ### Claims -/

/-- C9: while a gateway call issued on a round is still outstanding — the
loading flag holds the (non-empty) progress message the source stores — any
further `handleDescribe`, `handleGuess` or `handleGiveUp` call is rejected
without mutating the state, so gateway-calling operations never overlap. -/
theorem C9_busy_rejected (s : AppState) (l : String)
    (hl : s.loading = some l) (hne : l ≠ "") (d g : String)
    (rd : Except String String) (rj : Except String JudgeResult) (c : Bool) :
    handleDescribe s d rd = s ∧ handleGuess s g rj = s ∧ handleGiveUp s c = s := by
  have ht : jsTruthy s.loading = true := by simp [jsTruthy, hl, hne]
  refine ⟨?_, ?_, ?_⟩
  · unfold handleDescribe; simp [ht]
  · exact handleGuess_rejected s g rj (Or.inr (Or.inl ht))
  · unfold handleGiveUp
    by_cases hi : jsTruthy s.current.imageUrl <;> simp [hi, ht]

def busyState : AppState := { baseState with loading := some "Judging guess..." }

/-- Witness for C9: at a concrete busy state, all three operations are
identity. -/
theorem C9_busy_rejected_witness :
    handleDescribe busyState "a dog" (Except.ok "img2") = busyState ∧
    handleGuess busyState "a cat" (Except.ok ⟨true, none, none⟩) = busyState ∧
    handleGiveUp busyState true = busyState :=
  C9_busy_rejected busyState "Judging guess..." rfl (by decide) "a dog" "a cat"
    (Except.ok "img2") (Except.ok ⟨true, none, none⟩) true

/-- C8: when a gateway call fails (the judge call during `handleGuess`, or the
generate call during `handleDescribe`), the round state is left entirely
unchanged — no attempt recorded, no score mutated, the outcome untouched — and
a recoverable error message is set (with the loading flag cleared) so the
caller may retry the identical operation. -/
theorem C8_gateway_failure_atomic (s : AppState) (g d msg : String) :
    (handleGuess s g (Except.error msg)).current = s.current ∧
    (handleGuess s g (Except.error msg)).scores = s.scores ∧
    outcome (handleGuess s g (Except.error msg)) = outcome s ∧
    (handleGuess s g (Except.error msg)).gameOver = s.gameOver ∧
    (handleGuess s g (Except.error msg)).history = s.history ∧
    (handleDescribe s d (Except.error msg)).current = s.current ∧
    (handleDescribe s d (Except.error msg)).scores = s.scores ∧
    outcome (handleDescribe s d (Except.error msg)) = outcome s ∧
    (jsTruthy s.current.imageUrl = true → jsTruthy s.loading = false →
      isDuplicateGuess s.current g = false →
      (handleGuess s g (Except.error msg)).error = some (jsOr msg "Failed to judge") ∧
      (handleGuess s g (Except.error msg)).loading = none) ∧
    (jsTruthy s.loading = false →
      (handleDescribe s d (Except.error msg)).error =
        some (jsOr msg "Failed to generate image") ∧
      (handleDescribe s d (Except.error msg)).loading = none) := by
  have hg : handleGuess s g (Except.error msg) = s ∨
      handleGuess s g (Except.error msg) =
        { s with error := some (jsOr msg "Failed to judge"), loading := none } := by
    by_cases h1 : jsTruthy s.current.imageUrl
    · by_cases h2 : jsTruthy s.loading
      · exact Or.inl (handleGuess_rejected s g _ (Or.inr (Or.inl h2)))
      · by_cases h3 : isDuplicateGuess s.current g
        · exact Or.inl (handleGuess_rejected s g _ (Or.inr (Or.inr h3)))
        · exact Or.inr (handleGuess_error_accepted s g msg h1
            (Bool.eq_false_iff.mpr h2) (Bool.eq_false_iff.mpr h3))
    · exact Or.inl (handleGuess_rejected s g _
        (Or.inl (Bool.eq_false_iff.mpr h1)))
  have hd : handleDescribe s d (Except.error msg) = s ∨
      handleDescribe s d (Except.error msg) =
        { s with error := some (jsOr msg "Failed to generate image"),
                 loading := none } := by
    unfold handleDescribe
    by_cases h1 : jsTruthy s.loading
    · exact Or.inl (by simp [h1])
    · exact Or.inr (by simp [h1])
  refine ⟨?_, ?_, ?_, ?_, ?_, ?_, ?_, ?_, ?_, ?_⟩
  · rcases hg with h | h <;> simp [h]
  · rcases hg with h | h <;> simp [h]
  · rcases hg with h | h <;> simp [h, outcome]
  · rcases hg with h | h <;> simp [h]
  · rcases hg with h | h <;> simp [h]
  · rcases hd with h | h <;> simp [h]
  · rcases hd with h | h <;> simp [h]
  · rcases hd with h | h <;> simp [h, outcome]
  · intro h1 h2 h3
    rw [handleGuess_error_accepted s g msg h1 h2 h3]
    exact ⟨rfl, rfl⟩
  · intro h1
    unfold handleDescribe
    simp [h1]

/-- Witness for C8: a failed judge call and a failed generate call at a
concrete ready state report errors and leave the round untouched. -/
theorem C8_gateway_failure_atomic_witness :
    (handleGuess baseState "a cat" (Except.error "boom")).current = baseState.current ∧
    (handleGuess baseState "a cat" (Except.error "boom")).scores = baseState.scores ∧
    outcome (handleGuess baseState "a cat" (Except.error "boom")) = outcome baseState ∧
    (handleGuess baseState "a cat" (Except.error "boom")).error = some "boom" :=
  have h := C8_gateway_failure_atomic baseState "a cat" "d" "boom"
  ⟨h.1, h.2.1, h.2.2.1, by
    have := (h.2.2.2.2.2.2.2.2.1 (by decide) (by decide) (by decide)).1
    simpa [jsOr] using this⟩

def attemptWrong : Attempt :=
  { guess := "a blue bicycle", correct := false, rationale := none, closeness := none }

/-- A round that ended by giving up after one incorrect attempt. -/
def gaveUpState : AppState :=
  { baseState with
    current := { baseState.current with attempts := [attemptWrong] },
    roundOver := true,
    roundReason := some RoundReason.give_up }

/-- C1 counterexample: at a concrete round whose outcome is terminal (GaveUp,
after one incorrect attempt), a subsequent raw `handleGuess` call is not
rejected — it appends a second attempt.  The handler checks only the image,
the loading flag and the last-guess duplicate, never the outcome. -/
theorem C1_counterexample :
    outcome gaveUpState ≠ Outcome.Pending ∧
    (handleGuess gaveUpState "a green car"
        (Except.ok ⟨false, none, none⟩)).current.attempts.length = 2 := by
  decide

/-- C1 (amended): once a round's outcome is terminal, no `submitGuess` or
`giveUp` issued through the rendered interface mutates the state at all — the
render tree only mounts the guess form (the sole caller of the two handlers)
while the round is not over; the raw handlers themselves do not re-check
terminality. -/
theorem C1_terminal_frozen (s : AppState) (h : outcome s ≠ Outcome.Pending) :
    (∀ g r, submitGuess s g r = s) ∧ ∀ c, giveUp s c = s := by
  have hro : s.roundOver = true := by
    rcases Bool.eq_false_or_eq_true s.roundOver with ht | hf
    · exact ht
    · exact absurd (by simp [outcome, hf]) h
  have hv : guessFormVisible s = false := by simp [guessFormVisible, hro]
  exact ⟨fun g r => by simp [submitGuess, hv], fun c => by simp [giveUp, hv]⟩

/-- Witness for the amended C1 at the concrete terminal state. -/
theorem C1_terminal_frozen_witness :
    submitGuess gaveUpState "a green car" (Except.ok ⟨false, none, none⟩) = gaveUpState ∧
    giveUp gaveUpState true = gaveUpState :=
  ⟨(C1_terminal_frozen gaveUpState (by decide)).1 "a green car" (Except.ok ⟨false, none, none⟩),
   (C1_terminal_frozen gaveUpState (by decide)).2 true⟩

def wrongJudge : Except String JudgeResult := Except.ok ⟨false, none, none⟩

/-- Three raw incorrect guesses in a row from the fresh round. -/
def afterThree : AppState :=
  handleGuess (handleGuess (handleGuess baseState "guess one" wrongJudge)
    "guess two" wrongJudge) "guess three" wrongJudge

/-- C4 counterexample: a sequence of four raw `handleGuess` calls in one round
drives the attempts list to 4 entries; after the third incorrect attempt the
outcome is MaxAttemptsReached, yet the fourth call still appends. -/
theorem C4_counterexample :
    afterThree.current.attempts.length = 3 ∧
    outcome afterThree = Outcome.MaxAttemptsReached ∧
    (handleGuess afterThree "guess four" wrongJudge).current.attempts.length = 4 := by
  decide

/-- C4 (amended): through the rendered interface (which only mounts the guess
form while the round is not over) the cap holds: from any state satisfying the
round invariant — at most 3 attempts, and the round over as soon as there are
3 — `submitGuess` preserves the invariant, is identity once the round is over,
and an appended 3rd incorrect attempt sets the outcome to MaxAttemptsReached.
The raw handler performs no terminality check of its own. -/
theorem C4_attempt_cap (s : AppState) (g : String) (r : Except String JudgeResult)
    (hlen : s.current.attempts.length ≤ 3)
    (hterm : s.current.attempts.length = 3 → s.roundOver = true) :
    (submitGuess s g r).current.attempts.length ≤ 3 ∧
    ((submitGuess s g r).current.attempts.length = 3 →
      (submitGuess s g r).roundOver = true) ∧
    (s.roundOver = true → submitGuess s g r = s) ∧
    (∀ j, r = Except.ok j → j.correct = false →
      (submitGuess s g r).current.attempts.length = 3 → submitGuess s g r ≠ s →
      outcome (submitGuess s g r) = Outcome.MaxAttemptsReached) := by
  by_cases hv : guessFormVisible s
  · have hvparts : s.started = true ∧ s.gameOver = false ∧
        jsTruthy s.current.imageUrl = true ∧ s.roundOver = false := by
      simpa [guessFormVisible, Bool.and_eq_true, and_assoc] using hv
    have hsub : submitGuess s g r = handleGuess s g r := by simp [submitGuess, hv]
    by_cases hld : jsTruthy s.loading
    · have hid : handleGuess s g r = s := handleGuess_rejected s g r (Or.inr (Or.inl hld))
      rw [hsub, hid]
      exact ⟨hlen, hterm, fun _ => rfl, fun j _ _ _ hne => absurd rfl hne⟩
    · by_cases hdup : isDuplicateGuess s.current g
      · have hid : handleGuess s g r = s := handleGuess_rejected s g r (Or.inr (Or.inr hdup))
        rw [hsub, hid]
        exact ⟨hlen, hterm, fun _ => rfl, fun j _ _ _ hne => absurd rfl hne⟩
      · have hld' : jsTruthy s.loading = false := Bool.eq_false_iff.mpr hld
        have hdup' : isDuplicateGuess s.current g = false := Bool.eq_false_iff.mpr hdup
        cases r with
        | error msg =>
            have herr := handleGuess_error_accepted s g msg hvparts.2.2.1 hld' hdup'
            rw [hsub, herr]
            refine ⟨hlen, ?_, ?_, ?_⟩
            · intro h3
              exact absurd (hterm (by simpa using h3)) (by simp [hvparts.2.2.2])
            · intro hro; exact absurd hro (by simp [hvparts.2.2.2])
            · intro j hj; exact absurd hj (by simp)
        | ok j =>
            have hf := handleGuess_ok_fields s g j hvparts.2.2.1 hld' hdup'
            have hlt : s.current.attempts.length ≤ 2 := by
              rcases Nat.lt_or_ge s.current.attempts.length 3 with hl | hl
              · omega
              · have h3 : s.current.attempts.length = 3 := le_antisymm hlen hl
                exact absurd (hterm h3) (by simp [hvparts.2.2.2])
            have hlen' : (handleGuess s g (Except.ok j)).current.attempts.length =
                s.current.attempts.length + 1 := by
              rw [hf.1]; simp
            refine ⟨?_, ?_, ?_, ?_⟩
            · rw [hsub, hlen']; omega
            · intro h3
              rw [hsub] at h3 ⊢
              rw [hlen'] at h3
              rw [hf.2.2.1]
              by_cases hc : j.correct
              · simp [hc]
              · simp [hc, h3]
            · intro hro; exact absurd hro (by simp [hvparts.2.2.2])
            · intro j' hj' hcor h3 _
              rw [hsub] at h3 ⊢
              have hjj : j' = j := by
                injection hj' with hh; exact hh.symm
              rw [hjj] at hcor
              rw [hlen'] at h3
              have hge : s.current.attempts.length + 1 ≥ 3 := by omega
              have hrov : (handleGuess s g (Except.ok j)).roundOver = true := by
                rw [hf.2.2.1]; simp [hcor, hge]
              have hrr : (handleGuess s g (Except.ok j)).roundReason =
                  some RoundReason.max_attempts := by
                rw [hf.2.2.2.1]; simp [hcor, hge]
              simp [outcome, hrov, hrr]
  · have hsub : ∀ r', submitGuess s g r' = s := fun r' => by simp [submitGuess, hv]
    rw [hsub]
    exact ⟨hlen, hterm, fun _ => rfl, fun j _ _ _ hne => absurd rfl hne⟩

/-- Two raw incorrect guesses from the fresh round: attempts = 2, Pending. -/
def twoWrongState : AppState :=
  handleGuess (handleGuess baseState "guess one" wrongJudge) "guess two" wrongJudge

/-- Witness for the amended C4: the third incorrect guess through the
interface stays within the cap and ends the round with MaxAttemptsReached. -/
theorem C4_attempt_cap_witness :
    (submitGuess twoWrongState "guess three" wrongJudge).current.attempts.length ≤ 3 ∧
    outcome (submitGuess twoWrongState "guess three" wrongJudge) =
      Outcome.MaxAttemptsReached := by
  have h := C4_attempt_cap twoWrongState "guess three" wrongJudge (by decide) (by decide)
  exact ⟨h.1, h.2.2.2 ⟨false, none, none⟩ rfl rfl (by decide) (by decide)⟩

theorem roundOver_false_of_pending {s : AppState}
    (h : outcome s = Outcome.Pending) : s.roundOver = false := by
  rcases Bool.eq_false_or_eq_true s.roundOver with ht | hf
  · unfold outcome at h
    rw [ht] at h
    simp only [if_true] at h
    rcases hrr : s.roundReason with _ | rr
    · rw [hrr] at h; simp at h
    · rw [hrr] at h; cases rr <;> simp at h
  · exact hf

theorem scoreOf_setScore_self (sc : Int × Int) (pid : Nat) (v : Int)
    (h : pid = 1 ∨ pid = 2) : scoreOf (setScore sc pid v) pid = v := by
  rcases h with h | h <;> simp [scoreOf, setScore, h]

/-- C2: under the target-score policy, the guesser's score increases by
exactly `POINTS_PER_CORRECT` (1) if and only if the round's outcome
transitions to Correct; the describer's score never changes, and a give-up
changes no score at all. -/
theorem C2_score_increment_iff_correct (s : AppState) (g : String)
    (r : Except String JudgeResult) (hp : standardPlayers s = true)
    (hpend : outcome s = Outcome.Pending) :
    scoreOf (handleGuess s g r).scores (guesserId s) =
      scoreOf s.scores (guesserId s) +
        (if outcome (handleGuess s g r) = Outcome.Correct then POINTS_PER_CORRECT
         else 0) ∧
    scoreOf (handleGuess s g r).scores s.current.describerId =
      scoreOf s.scores s.current.describerId ∧
    ∀ c, (handleGiveUp s c).scores = s.scores := by
  have hro : s.roundOver = false := roundOver_false_of_pending hpend
  have hgid : guesserId s = if s.current.describerId = 1 then 2 else 1 :=
    guesserId_std s hp
  have hg12 : guesserId s = 1 ∨ guesserId s = 2 := by
    rw [hgid]; by_cases h : s.current.describerId = 1 <;> simp [h]
  have hgive : ∀ c, (handleGiveUp s c).scores = s.scores :=
    fun c => (handleGiveUp_preserves s c).1
  by_cases himg : jsTruthy s.current.imageUrl
  · by_cases hld : jsTruthy s.loading
    · rw [handleGuess_rejected s g r (Or.inr (Or.inl hld))]
      exact ⟨by simp [hpend], rfl, hgive⟩
    · by_cases hdup : isDuplicateGuess s.current g
      · rw [handleGuess_rejected s g r (Or.inr (Or.inr hdup))]
        exact ⟨by simp [hpend], rfl, hgive⟩
      · have hld' : jsTruthy s.loading = false := Bool.eq_false_iff.mpr hld
        have hdup' : isDuplicateGuess s.current g = false := Bool.eq_false_iff.mpr hdup
        cases r with
        | error msg =>
            rw [handleGuess_error_accepted s g msg himg hld' hdup']
            exact ⟨by simp [outcome, hro], rfl, hgive⟩
        | ok j =>
            have hf := handleGuess_ok_fields s g j himg hld' hdup'
            by_cases hc : j.correct
            · have hsc : (handleGuess s g (Except.ok j)).scores =
                  setScore s.scores (guesserId s)
                    (scoreOf s.scores (guesserId s) + POINTS_PER_CORRECT) := by
                rw [hf.2.2.2.2.1]; simp [hc]
              have hout : outcome (handleGuess s g (Except.ok j)) = Outcome.Correct := by
                have h1 : (handleGuess s g (Except.ok j)).roundOver = true := by
                  rw [hf.2.2.1]; simp [hc]
                have h2 : (handleGuess s g (Except.ok j)).roundReason =
                    some RoundReason.correct := by
                  rw [hf.2.2.2.1]; simp [hc]
                simp [outcome, h1, h2]
              refine ⟨?_, ?_, hgive⟩
              · rw [hsc, hout, scoreOf_setScore_self _ _ _ hg12]
                simp
              · rw [hsc, hgid]
                by_cases hd : s.current.describerId = 1 <;>
                  simp [scoreOf, setScore, hd]
            · have hsc : (handleGuess s g (Except.ok j)).scores = s.scores := by
                rw [hf.2.2.2.2.1]; simp [hc]
              have hout : outcome (handleGuess s g (Except.ok j)) ≠ Outcome.Correct := by
                by_cases hlen : s.current.attempts.length + 1 ≥ 3
                · have h1 : (handleGuess s g (Except.ok j)).roundOver = true := by
                    rw [hf.2.2.1]; simp [hc, hlen]
                  have h2 : (handleGuess s g (Except.ok j)).roundReason =
                      some RoundReason.max_attempts := by
                    rw [hf.2.2.2.1]; simp [hc, hlen]
                  simp [outcome, h1, h2]
                · have h1 : (handleGuess s g (Except.ok j)).roundOver = false := by
                    rw [hf.2.2.1]; simp [hc, hlen, hro]
                  simp [outcome, h1]
              exact ⟨by rw [hsc]; simp [hout], by rw [hsc], hgive⟩
  · rw [handleGuess_rejected s g r (Or.inl (Bool.eq_false_iff.mpr himg))]
    exact ⟨by simp [hpend], rfl, hgive⟩

/-- Witness for C2: a correct second-player guess at the concrete ready state
raises the guesser's score from 0 to 1, leaves the describer's score at 0. -/
theorem C2_score_increment_iff_correct_witness :
    scoreOf (handleGuess baseState "a red bicycle"
        (Except.ok ⟨true, none, none⟩)).scores (guesserId baseState) =
      scoreOf baseState.scores (guesserId baseState) +
        (if outcome (handleGuess baseState "a red bicycle"
            (Except.ok ⟨true, none, none⟩)) = Outcome.Correct then POINTS_PER_CORRECT
         else 0) ∧
    scoreOf (handleGuess baseState "a red bicycle"
        (Except.ok ⟨true, none, none⟩)).scores baseState.current.describerId =
      scoreOf baseState.scores baseState.current.describerId :=
  have h := C2_score_increment_iff_correct baseState "a red bicycle"
    (Except.ok ⟨true, none, none⟩) (by decide) (by decide)
  ⟨h.1, h.2.1⟩

/-- C3: with the win threshold not yet met and the match not over, a
`handleGuess` step makes the match Over exactly when it brings some player's
score to the target; give-up, round advancement and description steps never
end the match. -/
theorem C3_over_iff_target_reached (s : AppState) (g : String)
    (r : Except String JudgeResult)
    (hnw : canWin s.targetScore s.scores = false) (hgo : s.gameOver = false) :
    ((handleGuess s g r).gameOver = true ↔
      canWin (handleGuess s g r).targetScore (handleGuess s g r).scores = true) ∧
    (∀ c, (handleGiveUp s c).gameOver = false) ∧
    (nextRound s).gameOver = false ∧
    ∀ d rd, (handleDescribe s d rd).gameOver = false := by
  have hgive : ∀ c, (handleGiveUp s c).gameOver = false :=
    fun c => (handleGiveUp_preserves s c).2.1.trans hgo
  have hnext : (nextRound s).gameOver = false := hgo
  have hdesc : ∀ d rd, (handleDescribe s d rd).gameOver = false :=
    fun d rd => (handleDescribe_preserves s d rd).2.1.trans hgo
  refine ⟨?_, hgive, hnext, hdesc⟩
  by_cases himg : jsTruthy s.current.imageUrl
  · by_cases hld : jsTruthy s.loading
    · rw [handleGuess_rejected s g r (Or.inr (Or.inl hld))]
      simp [hgo, hnw]
    · by_cases hdup : isDuplicateGuess s.current g
      · rw [handleGuess_rejected s g r (Or.inr (Or.inr hdup))]
        simp [hgo, hnw]
      · have hld' : jsTruthy s.loading = false := Bool.eq_false_iff.mpr hld
        have hdup' : isDuplicateGuess s.current g = false := Bool.eq_false_iff.mpr hdup
        cases r with
        | error msg =>
            rw [handleGuess_error_accepted s g msg himg hld' hdup']
            simp [hgo, hnw]
        | ok j =>
            have hf := handleGuess_ok_fields s g j himg hld' hdup'
            rw [hf.2.1]
            by_cases hc : j.correct
            · have : (handleGuess s g (Except.ok j)).gameOver =
                  canWin s.targetScore (handleGuess s g (Except.ok j)).scores := by
                rw [hf.2.2.2.2.2]
                simp [hc, hgo]
              rw [this]
            · have h1 : (handleGuess s g (Except.ok j)).gameOver = false := by
                rw [hf.2.2.2.2.2]; simp [hc, hgo]
              have h2 : (handleGuess s g (Except.ok j)).scores = s.scores := by
                rw [hf.2.2.2.2.1]; simp [hc]
              rw [h1, h2]
              simp [hnw]
  · rw [handleGuess_rejected s g r (Or.inl (Bool.eq_false_iff.mpr himg))]
    simp [hgo, hnw]

/-- A round one correct guess short of the target score. -/
def nearWinState : AppState := { baseState with scores := (0, 9) }

/-- Witness for C3: a correct guess at 9 of 10 points ends the match. -/
theorem C3_over_iff_target_reached_witness :
    (handleGuess nearWinState "a red bicycle"
      (Except.ok ⟨true, none, none⟩)).gameOver = true :=
  (C3_over_iff_target_reached nearWinState "a red bicycle"
      (Except.ok ⟨true, none, none⟩) (by decide) (by decide)).1.mpr (by decide)

/-- A round whose single recorded attempt carries the empty string as its
guess text (reachable by a direct `handleGuess` call: the handler never
validates guess emptiness, and a first guess is never a duplicate). -/
def emptyLastState : AppState :=
  { baseState with current := { baseState.current with
      attempts := [{ guess := "", correct := false, rationale := none,
                     closeness := none }] } }

/-- C5 counterexample: a whitespace-only guess normalizes to the same text as
the recorded empty last guess, yet `handleGuess` does not silently ignore it:
the suppression guard first tests the raw previous guess for JS truthiness, so
an empty last guess disables it and the gateway reply is consumed, appending a
second attempt. -/
theorem C5_counterexample :
    normalizeText " " = normalizeText "" ∧
    lastGuess emptyLastState.current = some "" ∧
    (handleGuess emptyLastState " "
        (Except.ok ⟨false, none, none⟩)).current.attempts.length = 2 := by
  decide

/-- C5 (amended): `handleGuess` silently ignores — returns the state unchanged
for every possible gateway reply — a guess whose normalized text equals that
of the immediately preceding attempt, provided that attempt's raw guess text
is non-empty (the guard tests the raw string's JS truthiness); and the
comparison is only against the last attempt: whenever the last-attempt check
fails and the other entry guards pass, the guess is judged and appended, even
if it equals an earlier attempt of the round. -/
theorem C5_duplicate_suppression (s : AppState) (g : String) :
    (∀ lg, lastGuess s.current = some lg → lg ≠ "" →
      normalizeText lg = normalizeText g → ∀ r, handleGuess s g r = s) ∧
    (jsTruthy s.current.imageUrl = true → jsTruthy s.loading = false →
      isDuplicateGuess s.current g = false →
      ∀ j, (handleGuess s g (Except.ok j)).current.attempts =
        s.current.attempts ++
          [{ guess := g, correct := j.correct, rationale := j.rationale,
             closeness := j.closeness }]) := by
  constructor
  · intro lg hlg hne heq r
    apply handleGuess_rejected
    exact Or.inr (Or.inr (by simp [isDuplicateGuess, hlg, hne, heq]))
  · intro h1 h2 h3 j
    exact (handleGuess_ok_fields s g j h1 h2 h3).1

/-- A round with two attempts: "a cat" then "a dog". -/
def earlierDupState : AppState :=
  { baseState with current := { baseState.current with attempts :=
      [{ guess := "a cat", correct := false, rationale := none, closeness := none },
       { guess := "a dog", correct := false, rationale := none, closeness := none }] } }

/-- Witness for the amended C5: "a cat" equals the first attempt but differs
from the last, so it is judged and appended; "A  dog" normalizes to the last
attempt's text and is ignored even for a correct gateway reply. -/
theorem C5_duplicate_suppression_witness :
    (handleGuess earlierDupState "a cat"
        (Except.ok ⟨false, none, none⟩)).current.attempts =
      earlierDupState.current.attempts ++
        [{ guess := "a cat", correct := false, rationale := none,
           closeness := none }] ∧
    handleGuess earlierDupState "A  dog" (Except.ok ⟨true, none, none⟩) =
      earlierDupState :=
  ⟨(C5_duplicate_suppression earlierDupState "a cat").2 (by decide) (by decide)
      (by decide) ⟨false, none, none⟩,
   (C5_duplicate_suppression earlierDupState "A  dog").1 "a dog" (by decide)
      (by decide) (by decide) (Except.ok ⟨true, none, none⟩)⟩

/-- C6: `nextRound` hands the describer role to the previous round's guesser:
with the standard two players the describer id flips between 1 and 2 (hence
strictly alternates across any sequence of round advances, the player
configuration being preserved), and the new round starts with an empty
description, no image and no attempts. -/
theorem C6_turn_alternates (s : AppState) (hp : standardPlayers s = true) :
    (nextRound s).current.describerId =
      (if s.current.describerId = 1 then 2 else 1) ∧
    (s.current.describerId = 1 ∨ s.current.describerId = 2 →
      (nextRound s).current.describerId ≠ s.current.describerId ∧
      ((nextRound s).current.describerId = 1 ∨
        (nextRound s).current.describerId = 2)) ∧
    standardPlayers (nextRound s) = true ∧
    (nextRound s).current.description = "" ∧
    (nextRound s).current.imageUrl = none ∧
    (nextRound s).current.attempts = [] := by
  have hg : (nextRound s).current.describerId =
      (if s.current.describerId = 1 then 2 else 1) := by
    simp [nextRound, guesserId_std s hp]
  refine ⟨hg, ?_, by simpa [standardPlayers, nextRound] using hp, rfl, rfl, rfl⟩
  intro hd
  rw [hg]
  rcases hd with h | h <;> simp [h]

/-- Witness for C6 at the concrete ready state (player 1 describing). -/
theorem C6_turn_alternates_witness :
    (nextRound baseState).current.describerId = 2 ∧
    (nextRound baseState).current.description = "" ∧
    (nextRound baseState).current.attempts = [] :=
  have h := C6_turn_alternates baseState (by decide)
  ⟨by simpa using h.1, h.2.2.2.1, h.2.2.2.2.2⟩

/-- C10: the GameOver screen's winner is the player with the higher score,
with ties resolved in favor of player 1 (`scores[1] >= scores[2]`); it never
declares a draw. -/
theorem C10_winner_tiebreak (sc : Int × Int) (n1 n2 : String) :
    (sc.1 = sc.2 → winnerName sc n1 n2 = n1) ∧
    (sc.1 ≥ sc.2 → winnerName sc n1 n2 = n1) ∧
    (sc.2 > sc.1 → winnerName sc n1 n2 = n2) ∧
    (winnerName sc n1 n2 = n1 ∨ winnerName sc n1 n2 = n2) := by
  unfold winnerName
  by_cases h : sc.1 ≥ sc.2
  · refine ⟨fun _ => by simp [h], fun _ => by simp [h],
      fun hgt => absurd h (by omega), Or.inl (by simp [h])⟩
  · refine ⟨fun he => absurd (by omega : sc.1 ≥ sc.2) h,
      fun hge => absurd hge h, fun _ => by simp [h], Or.inr (by simp [h])⟩

/-- Witness for C10: equal scores crown player 1. -/
theorem C10_winner_tiebreak_witness :
    winnerName (3, 3) "Jonas the Red" "Erna the Blue" = "Jonas the Red" :=
  (C10_winner_tiebreak (3, 3) "Jonas the Red" "Erna the Blue").1 rfl

theorem tokens_nodup (s : String) : (tokens s).Nodup := List.nodup_dedup _

/-- The overlap count of the heuristic is the cardinality of the token-set
intersection. -/
theorem overlapWords_eq (a b : String) :
    overlapWords a b = (tokenFinset a ∩ tokenFinset b).card := by
  unfold overlapWords tokenFinset
  have hnd : ((tokens b).filter (fun w => w ∈ tokens a)).Nodup :=
    (tokens_nodup b).filter _
  rw [← List.toFinset_card_of_nodup hnd]
  congr 1
  ext w
  simp only [List.mem_toFinset, List.mem_filter, Finset.mem_inter,
    decide_eq_true_eq]
  exact and_comm

/-- The union size of the heuristic is the cardinality of the token-set
union. -/
theorem unionSize_eq (a b : String) :
    unionSize a b = (tokenFinset a ∪ tokenFinset b).card := by
  unfold unionSize tokenFinset
  rw [← List.card_toFinset, List.toFinset_append]

/-- C7: the local judging heuristic's closeness is the Jaccard index of the
lower-case alphanumeric token sets (union treated as 1 when both sets are
empty), it always lies in [0,1], and its correctness verdict holds exactly
when the token intersection has at least 3 elements or the trimmed
lower-cased guess equals the trimmed lower-cased original. -/
theorem C7_local_heuristic (orig guess : String) :
    computeCloseness orig guess =
      jaccardSpec (tokenFinset orig) (tokenFinset guess) ∧
    0 ≤ computeCloseness orig guess ∧
    computeCloseness orig guess ≤ 1 ∧
    (judgeLocalCorrect orig guess = true ↔
      3 ≤ (tokenFinset orig ∩ tokenFinset guess).card ∨
        toLowerStr (trimStr guess) = toLowerStr (trimStr orig)) := by
  have hov := overlapWords_eq orig guess
  have hun := unionSize_eq orig guess
  have hdenpos :
      0 < (if unionSize orig guess = 0 then (1 : ℚ)
           else (unionSize orig guess : ℚ)) := by
    by_cases h : unionSize orig guess = 0
    · simp [h]
    · rw [if_neg h]
      exact_mod_cast Nat.pos_of_ne_zero h
  refine ⟨?_, ?_, ?_, ?_⟩
  · unfold computeCloseness jaccardSpec
    rw [hov, hun]
    congr 1
    exact if_congr (by rw [Finset.card_eq_zero, Finset.union_eq_empty]) rfl rfl
  · exact div_nonneg (Nat.cast_nonneg _) hdenpos.le
  · unfold computeCloseness
    rw [div_le_one hdenpos]
    have hcard : overlapWords orig guess ≤ unionSize orig guess := by
      rw [hov, hun]
      exact Finset.card_le_card
        ((Finset.inter_subset_left).trans Finset.subset_union_left)
    by_cases h : unionSize orig guess = 0
    · rw [if_pos h]
      have h0 : overlapWords orig guess = 0 := by omega
      simp [h0]
    · rw [if_neg h]
      exact_mod_cast hcard
  · simp only [judgeLocalCorrect, Bool.or_eq_true, decide_eq_true_eq]
    rw [hov]

end Pixter
